import Mathlib

/-!
Verification development for the Pointing Selection & Dispatch Engine of
`mission_control.py` (The Petabyte Project mission-control GUI).

The embedding below follows the source file:
* `Launcher.generate` (lines 231-342): parsing of the raw entry fields with
  per-field defaults, assembly of the filter state and of the remote
  `pointing_query` object;
* the status-classification loop of `GlobalInfoWindow.__init__`
  (lines 550-564) and the summary counters and display lines
  (lines 566-600);
* `GlobalInfoWindow.launch_all` (lines 672-693) and
  `LaunchPointingWindow.launch` (lines 881-902).

Numeric values (Python floats) are modelled as rationals; the values the
claims evaluate are exactly representable, so no rounding discrepancy with
binary floats arises at those points.
-/

namespace MissionControl

/-- Parse result of one numeric text-entry field: `some v` when the Python
`float(text)` call succeeds with value `v`, `none` when it raises
`ValueError` (blank or unparsable text). -/
abbrev RawField := Option ℚ

/-- The raw user input read by `Launcher.generate`: the two dropdown
selections, the text of each numeric entry (already put through the
`float(...)` parse attempt, see `RawField`), the source text, and the
coordinate-mode checkbutton `val_checkbutton` (`true` = RA/dec ranges,
`false` = disk on the sky). -/
structure RawInput where
  chosen_parent_survey : String
  chosen_survey : String
  low_mjd : RawField
  high_mjd : RawField
  source : String
  val_checkbutton : Bool
  low_ra : RawField
  high_ra : RawField
  low_dec : RawField
  high_dec : RawField
  center_ra : RawField
  center_dec : RawField
  radius : RawField

/-- Sky-region constraint of the built criteria: the fields set by the two
branches of the coordinate section of `Launcher.generate` (lines 265-319). -/
inductive Region
  | box (low_ra high_ra low_dec high_dec : ℚ)
  | disk (center_ra center_dec radius : ℚ)
deriving DecidableEq

/-- The normalized filter state `Launcher.generate` assembles on `self`
before issuing the pointing query (lines 239-319). -/
structure FilterCriteria where
  chosen_parent_survey : String
  chosen_survey : String
  low_mjd : ℚ
  high_mjd : ℚ
  source : String
  region : Region
deriving DecidableEq

/-- `Launcher.generate`, lines 239-319.  Each
`try: x = float(x) except ValueError: x = default` block becomes
`Option.getD` with the literal default of the source (45000 / 63000 for the
MJDs; 0 / 360 / -90 / 90 for the box bounds; 10^3 for the radius).  In disk
mode a failed parse of a center coordinate leaves `None`, and the final
`if self.center_ra == None or self.center_dec == None` check of lines
316-319 replaces the region by center (180, 0) with radius 10^3.  The
function is total: no raw input makes it fail. -/
def generate (raw : RawInput) : FilterCriteria :=
  let low_mjd := raw.low_mjd.getD 45000
  let high_mjd := raw.high_mjd.getD 63000
  let region :=
    if raw.val_checkbutton then
      Region.box (raw.low_ra.getD 0) (raw.high_ra.getD 360)
        (raw.low_dec.getD (-90)) (raw.high_dec.getD 90)
    else
      let radius := raw.radius.getD 1000
      match raw.center_ra, raw.center_dec with
      | some cra, some cdec => Region.disk cra cdec radius
      | _, _ => Region.disk 180 0 1000
  { chosen_parent_survey := raw.chosen_parent_survey
    chosen_survey := raw.chosen_survey
    low_mjd := low_mjd
    high_mjd := high_mjd
    source := raw.source
    region := region }

/-- One operator object of the remote query (§6 of the interface):
`range lo hi` stands for the JSON object `{"$gte": lo, "$lte": hi}` and
`eqStr v` for `{"$eq": v}`. -/
inductive QueryOp
  | range (gte lte : ℚ)
  | eqStr (v : String)
deriving DecidableEq

/-- The `pointing_query` dict of `Launcher.generate`, lines 321-326, as an
association list in the construction order of the source: the
`source_name` constraint is added exactly when `self.source` is non-empty. -/
def pointing_query (c : FilterCriteria) : List (String × QueryOp) :=
  if c.source = "" then
    [("start_date_time", QueryOp.range c.low_mjd c.high_mjd),
     ("survey", QueryOp.eqStr c.chosen_survey)]
  else
    [("start_date_time", QueryOp.range c.low_mjd c.high_mjd),
     ("survey", QueryOp.eqStr c.chosen_survey),
     ("source_name", QueryOp.eqStr c.source)]

/-- One record of the status-service response `ID_data` for a pointing;
only its `completed` flag is read (line 559). -/
structure StatusRecord where
  completed : Bool
deriving DecidableEq

/-- The status classification of lines 555-563 of
`GlobalInfoWindow.__init__`: an empty response means the pointing was never
submitted; otherwise the first record's `completed` flag decides. -/
def classify (ID_data : List StatusRecord) : String :=
  match ID_data with
  | [] => "Unprocessed"
  | info :: _ => if info.completed then "Completed" else "Active"

/-- Line 567: the numpy boolean-mask count of `Completed` entries. -/
def N_completed (statuses : List String) : ℕ :=
  (statuses.filter (fun s => s = "Completed")).length

/-- Line 570: the numpy boolean-mask count of `Active` entries. -/
def N_active (statuses : List String) : ℕ :=
  (statuses.filter (fun s => s = "Active")).length

/-- Model of the Python expression `"{:.2f}".format(c / N)` for a count
`c` out of `N` pointings (`0 < N`): the quotient rounded to the nearest
hundredth, printed with exactly two digits behind the point.
`(200 * c + N) / (2 * N)` is `round(100 * c / N)` computed exactly on the
naturals (round half up; Python rounds the corresponding float half to
even, which agrees at every non-tie, in particular at the values this
development evaluates). -/
def fmt2_frac (c N : ℕ) : String :=
  let n : ℕ := (200 * c + N) / (2 * N)
  toString (n / 100) ++ "." ++ (if n % 100 < 10 then "0" else "") ++ toString (n % 100)

/-- The `Number processed` detail line of `info_text` (line 598 of the
source): `"    {} ({:.2f})%\n".format(self.N_completed, self.N_completed/self.N)`. -/
def number_processed_line (statuses : List String) : String :=
  "    " ++ toString (N_completed statuses) ++ " (" ++
    fmt2_frac (N_completed statuses) statuses.length ++ ")%\n"

/-- The `Number active` detail line of `info_text` (line 600 of the source):
`"    {} ({:.2f})%".format(self.N_active, self.N_active/self.N)`. -/
def number_active_line (statuses : List String) : String :=
  "    " ++ toString (N_active statuses) ++ " (" ++
    fmt2_frac (N_active statuses) statuses.length ++ ")%"

/-- Aggregate of one `launch_all` run: the two counters of lines 679-685 and
the list of pointing identifiers handed to `subprocess.Popen`.  The `Popen`
invocation (lines 686-690) is commented out in the source, so nothing is
ever appended to `spawned`. -/
structure LaunchAllResult where
  num_good_statuses : ℕ
  num_bad_statuses : ℕ
  spawned : List String
deriving DecidableEq

/-- `GlobalInfoWindow.launch_all`, lines 672-693: one pass over the status
array, incrementing `num_bad_statuses` when the status differs from
`Unprocessed` and `num_good_statuses` otherwise.  The launcher call in the
eligible branch is commented out in the source, so no process is started
(`spawned` stays empty).  The counters commute, so recursion from the tail
produces the same tallies as the left-to-right loop of the source. -/
def launch_all : List String → LaunchAllResult
  | [] => ⟨0, 0, []⟩
  | s :: rest =>
    let r := launch_all rest
    if s ≠ "Unprocessed" then
      ⟨r.num_good_statuses, r.num_bad_statuses + 1, r.spawned⟩
    else
      ⟨r.num_good_statuses + 1, r.num_bad_statuses, r.spawned⟩

/-- The text of the result popup of lines 691-693:
`"{} jobs launched; {} jobs cannot be processed.".format(num_good_statuses, num_bad_statuses)`. -/
def launch_all_message (statuses : List String) : String :=
  toString (launch_all statuses).num_good_statuses ++ " jobs launched; " ++
    toString (launch_all statuses).num_bad_statuses ++ " jobs cannot be processed."

/-- Outcome of one `LaunchPointingWindow.launch` call: `popup` is the text
of the window it opens, `isRejection` is `true` for the warning branch of
line 888 and `false` for the launch branch, and `spawned` lists the
identifiers handed to `subprocess.Popen` (the call of lines 893-897 is
commented out in the source, so it is always empty). -/
structure LaunchOneResult where
  popup : String
  isRejection : Bool
  spawned : List String
deriving DecidableEq

/-- `LaunchPointingWindow.launch`, lines 881-902. -/
def launch (ID : String) (status : String) : LaunchOneResult :=
  if status ≠ "Unprocessed" then
    { popup := "Warning! Pointing status is " ++ status ++ " and cannot be processed."
      isRejection := true
      spawned := [] }
  else
    { popup := "Job launched!"
      isRejection := false
      spawned := [] }

/-- A raw input with every numeric entry blank/unparsable, in range mode. -/
def blankRaw : RawInput :=
  { chosen_parent_survey := "P"
    chosen_survey := "S"
    low_mjd := none
    high_mjd := none
    source := ""
    val_checkbutton := true
    low_ra := none
    high_ra := none
    low_dec := none
    high_dec := none
    center_ra := none
    center_dec := none
    radius := none }

/-- A disk-mode raw input whose center parses to (10, 20) while the radius
entry is unparsable. -/
def diskValidCenterNoRadius : RawInput :=
  { blankRaw with
    val_checkbutton := false
    center_ra := some 10
    center_dec := some 20 }

/-- A disk-mode raw input with an unparsable center right ascension, a
parsed center declination and a parsed radius. -/
def diskBlankCenterRa : RawInput :=
  { blankRaw with
    val_checkbutton := false
    center_dec := some 20
    radius := some 5 }

/-- A range-mode raw input whose MJD entries parse to an out-of-order pair
(low 50000, high 46000). -/
def mjdOutOfOrderRaw : RawInput :=
  { blankRaw with
    low_mjd := some 50000
    high_mjd := some 46000 }

/-- A built criteria with a non-empty source filter. -/
def sampleCriteria : FilterCriteria :=
  { chosen_parent_survey := "P"
    chosen_survey := "S"
    low_mjd := 45000
    high_mjd := 63000
    source := "J0534"
    region := Region.box 0 360 (-90) 90 }

lemma launch_all_all_good (l : List String) (h : ∀ s ∈ l, s = "Unprocessed") :
    (launch_all l).num_good_statuses = l.length ∧ (launch_all l).num_bad_statuses = 0 := by
  induction l with
  | nil => exact ⟨rfl, rfl⟩
  | cons s rest ih =>
    have hs : s = "Unprocessed" := h s (List.mem_cons_self s rest)
    have hr := ih fun x hx => h x (List.mem_cons_of_mem _ hx)
    simp [launch_all, hs, hr.1, hr.2]

lemma launch_all_all_bad (l : List String) (h : ∀ s ∈ l, s ≠ "Unprocessed") :
    (launch_all l).num_good_statuses = 0 ∧ (launch_all l).num_bad_statuses = l.length := by
  induction l with
  | nil => exact ⟨rfl, rfl⟩
  | cons s rest ih =>
    have hs : s ≠ "Unprocessed" := h s (List.mem_cons_self s rest)
    have hr := ih fun x hx => h x (List.mem_cons_of_mem _ hx)
    simp [launch_all, hs, hr.1, hr.2]

/-- C10: every entry of a dispatched status sequence is tallied exactly
once by `launch_all`: the launched count plus the rejected count equals the
length of the sequence. -/
theorem mc_C10_every_entry_tallied_once (statuses : List String) :
    (launch_all statuses).num_good_statuses + (launch_all statuses).num_bad_statuses =
      statuses.length := by
  induction statuses with
  | nil => rfl
  | cons s rest ih =>
    by_cases h : s = "Unprocessed" <;> simp [launch_all, h] <;> omega

/-- C3: on an all-`Unprocessed` status sequence of length K, `launch_all`
tallies K launched and 0 rejected and reports exactly
`"K jobs launched; 0 jobs cannot be processed."`; on a sequence with no
`Unprocessed` entry it tallies 0 launched and K rejected and reports exactly
`"0 jobs launched; K jobs cannot be processed."`. -/
theorem mc_C3_dispatch_tallies_and_message (l : List String) :
    ((∀ s ∈ l, s = "Unprocessed") →
      (launch_all l).num_good_statuses = l.length ∧
      (launch_all l).num_bad_statuses = 0 ∧
      launch_all_message l =
        toString l.length ++ " jobs launched; " ++ toString 0 ++ " jobs cannot be processed.") ∧
    ((∀ s ∈ l, s ≠ "Unprocessed") →
      (launch_all l).num_good_statuses = 0 ∧
      (launch_all l).num_bad_statuses = l.length ∧
      launch_all_message l =
        toString 0 ++ " jobs launched; " ++ toString l.length ++ " jobs cannot be processed.") := by
  constructor
  · intro h
    have hg := launch_all_all_good l h
    exact ⟨hg.1, hg.2, by rw [launch_all_message, hg.1, hg.2]⟩
  · intro h
    have hb := launch_all_all_bad l h
    exact ⟨hb.1, hb.2, by rw [launch_all_message, hb.1, hb.2]⟩

/-- Witness for C3 at two concrete status sequences. -/
theorem mc_C3_dispatch_tallies_and_message_witness :
    ((launch_all ["Unprocessed", "Unprocessed"]).num_good_statuses =
       (["Unprocessed", "Unprocessed"] : List String).length) ∧
    launch_all_message ["Completed", "Active", "Active"] =
      "0 jobs launched; 3 jobs cannot be processed." := by
  constructor
  · exact ((mc_C3_dispatch_tallies_and_message ["Unprocessed", "Unprocessed"]).1 (by decide)).1
  · have h :=
      ((mc_C3_dispatch_tallies_and_message ["Completed", "Active", "Active"]).2 (by decide)).2.2
    exact h.trans (by decide)

/-- C1: the claim asserts that dispatch starts exactly one external
command-line process per `Unprocessed` pointing (and the single-pointing
variant one process for an `Unprocessed` pointing).  In the source the
`subprocess.Popen` invocation is commented out in both `launch_all`
(lines 686-690) and `LaunchPointingWindow.launch` (lines 893-897), so a
dispatch over one `Unprocessed` pointing tallies one launch and reports
`"Job launched!"` yet starts no process at all: the spawned-process list
is empty instead of holding one entry for the pointing. -/
theorem mc_C1_no_process_started :
    (launch_all ["Unprocessed"]).num_good_statuses = 1 ∧
    (launch_all ["Unprocessed"]).spawned = [] ∧
    (launch_all ["Unprocessed"]).spawned.length ≠ 1 ∧
    (launch "p1" "Unprocessed").popup = "Job launched!" ∧
    (launch "p1" "Unprocessed").spawned = [] := by
  decide

/-- C2: for the scenario statuses `[Completed, Active, Unprocessed]`
(one status record with `completed=true`, one with `completed=false`, one
empty response), N = 3 and both counts are 1 as the claim says, but the
displayed detail lines are `"    1 (0.33)%"`: the source formats the raw
quotient `count/N` with `"{:.2f}"` next to a literal `%` sign, so the
display reads 0.33 where the claim requires the percentage 33.33. -/
theorem mc_C2_percent_display :
    (([[⟨true⟩], [⟨false⟩], []] : List (List StatusRecord)).map classify =
      ["Completed", "Active", "Unprocessed"]) ∧
    (["Completed", "Active", "Unprocessed"] : List String).length = 3 ∧
    N_completed ["Completed", "Active", "Unprocessed"] = 1 ∧
    N_active ["Completed", "Active", "Unprocessed"] = 1 ∧
    number_processed_line ["Completed", "Active", "Unprocessed"] = "    1 (0.33)%\n" ∧
    number_processed_line ["Completed", "Active", "Unprocessed"] ≠ "    1 (33.33)%\n" ∧
    number_active_line ["Completed", "Active", "Unprocessed"] = "    1 (0.33)%" := by
  decide

/-- C6: `classify` returns `Unprocessed` exactly when the status-service
response is the empty list; on a non-empty response it inspects only the
first record's `completed` flag: `true` gives `Completed`, `false` gives
`Active`. -/
theorem mc_C6_classify_cases (ID_data : List StatusRecord) :
    (classify ID_data = "Unprocessed" ↔ ID_data = []) ∧
    (∀ info rest, ID_data = info :: rest →
      classify ID_data = if info.completed then "Completed" else "Active") := by
  constructor
  · cases ID_data with
    | nil => simp [classify]
    | cons info rest =>
      simp only [classify]
      constructor
      · intro h
        cases hc : info.completed <;> rw [hc] at h <;> simp at h
      · intro h
        simp at h
  · rintro info rest rfl
    simp [classify]

/-- Witness for C6 on an empty response and a `completed=true` response. -/
theorem mc_C6_classify_cases_witness :
    classify [] = "Unprocessed" ∧
    classify [⟨true⟩] =
      if (⟨true⟩ : StatusRecord).completed then "Completed" else "Active" :=
  ⟨(mc_C6_classify_cases []).1.mpr rfl,
   (mc_C6_classify_cases [⟨true⟩]).2 ⟨true⟩ [] rfl⟩

/-- C9: the single-pointing launch applies the batch eligibility rule: a
non-`Unprocessed` status yields the rejection popup naming that status (no
error, nothing launched), and the launch-result branch is taken exactly
when the status is `Unprocessed`. -/
theorem mc_C9_single_pointing_eligibility (ID status : String) :
    (status ≠ "Unprocessed" →
      (launch ID status).isRejection = true ∧
      (launch ID status).popup =
        "Warning! Pointing status is " ++ status ++ " and cannot be processed." ∧
      (launch ID status).spawned = []) ∧
    ((launch ID status).isRejection = false ↔ status = "Unprocessed") := by
  by_cases h : status = "Unprocessed" <;> simp [launch, h]

/-- Witness for C9 on an `Active` pointing. -/
theorem mc_C9_single_pointing_eligibility_witness :
    (launch "p1" "Active").isRejection = true ∧
    (launch "p1" "Active").popup =
      "Warning! Pointing status is Active and cannot be processed." := by
  have h := (mc_C9_single_pointing_eligibility "p1" "Active").1 (by decide)
  exact ⟨h.1, h.2.1.trans (by decide)⟩

/-- C4: the criteria-building step is a total function of the raw input
(no input makes it raise), and each blank/unparsable numeric field is
replaced by its documented default: lowMJD 45000, highMJD 63000, and in
box mode the RA bound 0 or 360 and the dec bound -90 or 90 for whichever
bound failed to parse. -/
theorem mc_C4_defaults_never_fail (raw : RawInput) :
    (raw.low_mjd = none → (generate raw).low_mjd = 45000) ∧
    (raw.high_mjd = none → (generate raw).high_mjd = 63000) ∧
    (raw.val_checkbutton = true →
      (raw.low_ra = none → ∃ b c d, (generate raw).region = Region.box 0 b c d) ∧
      (raw.high_ra = none → ∃ a c d, (generate raw).region = Region.box a 360 c d) ∧
      (raw.low_dec = none → ∃ a b d, (generate raw).region = Region.box a b (-90) d) ∧
      (raw.high_dec = none → ∃ a b c, (generate raw).region = Region.box a b c 90)) := by
  refine ⟨fun h => by simp [generate, h], fun h => by simp [generate, h], fun hm => ?_⟩
  refine ⟨fun h => ?_, fun h => ?_, fun h => ?_, fun h => ?_⟩
  · exact ⟨raw.high_ra.getD 360, raw.low_dec.getD (-90), raw.high_dec.getD 90,
      by simp [generate, hm, h]⟩
  · exact ⟨raw.low_ra.getD 0, raw.low_dec.getD (-90), raw.high_dec.getD 90,
      by simp [generate, hm, h]⟩
  · exact ⟨raw.low_ra.getD 0, raw.high_ra.getD 360, raw.high_dec.getD 90,
      by simp [generate, hm, h]⟩
  · exact ⟨raw.low_ra.getD 0, raw.high_ra.getD 360, raw.low_dec.getD (-90),
      by simp [generate, hm, h]⟩

/-- Witness for C4 on the all-blank raw input. -/
theorem mc_C4_defaults_never_fail_witness :
    (generate blankRaw).low_mjd = 45000 ∧ (generate blankRaw).high_mjd = 63000 :=
  ⟨(mc_C4_defaults_never_fail blankRaw).1 rfl,
   (mc_C4_defaults_never_fail blankRaw).2.1 rfl⟩

/-- C5 counterexample: in disk mode with a center that parses to (10, 20)
and an unparsable radius, the built region keeps the parsed center and only
defaults the radius to 1000; it is not the (180, 0) full-sky disk the claim
requires for every input with an unparsable radius. -/
theorem mc_C5_counterexample :
    (generate diskValidCenterNoRadius).region = Region.disk 10 20 1000 ∧
    (generate diskValidCenterNoRadius).region ≠ Region.disk 180 0 1000 := by
  decide

/-- C5 (amended): in disk mode, a blank/unparsable center right ascension
or declination forces the full-sky disk with center (180, 0) and radius
1000; an unparsable radius alone defaults the radius to 1000 while the
parsed center is kept.  No input makes the construction fail. -/
theorem mc_C5_disk_fallbacks (raw : RawInput) (hmode : raw.val_checkbutton = false) :
    ((raw.center_ra = none ∨ raw.center_dec = none) →
      (generate raw).region = Region.disk 180 0 1000) ∧
    (∀ cra cdec, raw.center_ra = some cra → raw.center_dec = some cdec →
      raw.radius = none → (generate raw).region = Region.disk cra cdec 1000) := by
  constructor
  · rintro (h | h)
    · rcases hd : raw.center_dec with _ | d <;> simp [generate, hmode, h, hd]
    · rcases ha : raw.center_ra with _ | a <;> simp [generate, hmode, h, ha]
  · intro cra cdec h1 h2 h3
    simp [generate, hmode, h1, h2, h3]

/-- Witness for C5 (amended) on a disk input with a blank center RA. -/
theorem mc_C5_disk_fallbacks_witness :
    (generate diskBlankCenterRa).region = Region.disk 180 0 1000 :=
  (mc_C5_disk_fallbacks diskBlankCenterRa rfl).1 (Or.inl rfl)

/-- C7 counterexample: when the low MJD entry parses to 50000 and the high
MJD entry parses to 46000, the built criteria violates lowMJD ≤ highMJD:
the builder performs no ordering check. -/
theorem mc_C7_counterexample :
    ¬ (generate mjdOutOfOrderRaw).low_mjd ≤ (generate mjdOutOfOrderRaw).high_mjd := by
  decide

/-- C7 (amended): the criteria-building step does not enforce
lowMJD ≤ highMJD; the built bounds are the parsed-or-default field values,
so the invariant holds exactly when those values are ordered — in
particular whenever both MJD entries are blank/unparsable (defaults
45000 ≤ 63000). -/
theorem mc_C7_mjd_order_not_enforced (raw : RawInput)
    (h : raw.low_mjd.getD 45000 ≤ raw.high_mjd.getD 63000) :
    (generate raw).low_mjd ≤ (generate raw).high_mjd := by
  simpa [generate] using h

/-- Witness for C7 (amended) on the all-blank raw input. -/
theorem mc_C7_mjd_order_not_enforced_witness :
    (generate blankRaw).low_mjd ≤ (generate blankRaw).high_mjd :=
  mc_C7_mjd_order_not_enforced blankRaw (by decide)

/-- C8: the remote pointing query built from any criteria contains exactly
the `start_date_time` range constraint (`$gte` lowMJD, `$lte` highMJD), the
`survey` equality constraint, and — exactly when the source field is
non-empty — the `source_name` equality constraint; no other field, and in
particular no sky-region constraint, ever appears. -/
theorem mc_C8_query_shape (c : FilterCriteria) :
    ("start_date_time", QueryOp.range c.low_mjd c.high_mjd) ∈ pointing_query c ∧
    ("survey", QueryOp.eqStr c.chosen_survey) ∈ pointing_query c ∧
    (("source_name", QueryOp.eqStr c.source) ∈ pointing_query c ↔ c.source ≠ "") ∧
    (∀ f op, (f, op) ∈ pointing_query c →
      f = "start_date_time" ∨ f = "survey" ∨ f = "source_name") := by
  by_cases hs : c.source = "" <;>
    refine ⟨by simp [pointing_query, hs], by simp [pointing_query, hs],
      by simp [pointing_query, hs], ?_⟩ <;>
    intro f op h <;>
    simp [pointing_query, hs, Prod.ext_iff] at h <;>
    tauto

/-- Witness for C8 on a criteria with a non-empty source filter. -/
theorem mc_C8_query_shape_witness :
    ("source_name", QueryOp.eqStr "J0534") ∈ pointing_query sampleCriteria :=
  (mc_C8_query_shape sampleCriteria).2.2.1.mpr (by decide)

end MissionControl
